import Mathlib

/-!
# Verification of the Dropseed audio-graph engine core

A shallow embedding of the plugin lifecycle state machine
(`src/graph/plugin_host/mod.rs`), the audio graph operations
(`src/graph/mod.rs`), and the deactivated-plugin passthrough task
(`src/graph/schedule/task.rs`), together with theorems settling the
specification claims about them.
-/

namespace Dropseed

/-- The plugin lifecycle state, from `PluginState` in
`src/graph/plugin_host/mod.rs` (`#[repr(u32)]`, values 0..7). -/
inductive PluginState where
  | Inactive
  | InactiveWithError
  | ActiveAndSleeping
  | ActiveAndProcessing
  | ActiveAndWaitingForQuiet
  | ActiveAndWaitingForTail
  | ActiveWithError
  | ActiveAndReadyToDeactivate
deriving DecidableEq, Repr

/-- `PluginState::is_active` from the source. -/
def PluginState.is_active : PluginState → Bool
  | .Inactive | .InactiveWithError => false
  | _ => true

/-- `PluginState::is_processing` from the source. -/
def PluginState.is_processing : PluginState → Bool
  | .ActiveAndProcessing | .ActiveAndWaitingForQuiet | .ActiveAndWaitingForTail => true
  | _ => false

/-- `PluginState::is_sleeping` from the source. -/
def PluginState.is_sleeping (s : PluginState) : Bool :=
  s = .ActiveAndSleeping

/-- `ProcessStatus` returned by a plugin's `process` call. -/
inductive ProcessStatus where
  | Continue
  | ContinueIfNotQuiet
  | Tail
  | Sleep
  | Error
deriving DecidableEq, Repr

/-- The audio-port layout returned by `audio_ports_ext()`; the host only
consumes the total channel counts, so the layout is embedded as those. -/
structure PluginAudioPortsExt where
  total_in_channels : Nat
  total_out_channels : Nat
deriving DecidableEq, Repr

/-- The persisted per-plugin record, fields from `PluginSaveState` as used by
`src/graph/plugin_host/mod.rs` and `src/graph/mod.rs` (spec section 6): a
plugin key, the channel counts, and the activation flag. -/
structure PluginSaveState where
  key : Nat
  audio_in_out_channels : Nat × Nat
  activation_requested : Bool
deriving DecidableEq, Repr

/-- `ActivatePluginError` from `src/graph/plugin_host/mod.rs`; the boxed
inner plugin errors carry no information the host inspects. -/
inductive ActivatePluginError where
  | NotLoaded
  | AlreadyActive
  | RestartScheduled
  | PluginFailedToGetAudioPortsExt
  | PluginSpecific
deriving DecidableEq, Repr

/-- The state of one `PluginInstanceHost` (`src/graph/plugin_host/mod.rs`),
with the shared atomic flags and the lock-free state word inlined as plain
fields: the step functions below are the only writers, mirroring the
single-writer-per-side discipline of the source. `main_thread_present`
stands for `main_thread.is_some()`, `param_queues_present` for
`param_queues.is_some()`. -/
structure PluginInstanceHost where
  state : PluginState
  main_thread_present : Bool
  audio_ports_ext : Option PluginAudioPortsExt
  save_state : Option PluginSaveState
  param_queues_present : Bool
  restart_requested : Bool
  process_requested : Bool
  callback_requested : Bool
  deactivate_requested : Bool
  remove_requested : Bool
deriving DecidableEq, Repr

/-- The fresh shared state word built by `SharedPluginState::new()`
(`AtomicU32::new(0)`, i.e. `Inactive`). -/
def SharedPluginState.new : PluginState := .Inactive

/-- `PluginInstanceHost::new`. The source sets `InactiveWithError` on a local
`state` binding when no main-thread handle is given, but then constructs the
struct with a fresh `Arc::new(SharedPluginState::new())` (line 103), so the
write is discarded; the embedding mirrors that. -/
def PluginInstanceHost.new (save_state : Option PluginSaveState)
    (main_thread_present restart_req proc_req cb_req : Bool) : PluginInstanceHost :=
  let state := SharedPluginState.new
  let _state := if main_thread_present then state else PluginState.InactiveWithError
  { state := SharedPluginState.new
    main_thread_present := main_thread_present
    audio_ports_ext := none
    save_state := save_state
    param_queues_present := false
    restart_requested := restart_req
    process_requested := proc_req
    callback_requested := cb_req
    deactivate_requested := false
    remove_requested := false }

/-- `PluginInstanceHost::can_activate`. -/
def PluginInstanceHost.can_activate (h : PluginInstanceHost) :
    Except ActivatePluginError Unit :=
  if !h.main_thread_present then .error .NotLoaded
  else if h.state.is_active then .error .AlreadyActive
  else if h.restart_requested then .error .RestartScheduled
  else .ok ()

instance {ε α : Type} [DecidableEq ε] [DecidableEq α] : DecidableEq (Except ε α) := fun a b =>
  match a, b with
  | .error e, .error e' =>
    if h : e = e' then isTrue (by rw [h]) else isFalse (by simp [h])
  | .error _, .ok _ => isFalse (by simp)
  | .ok _, .error _ => isFalse (by simp)
  | .ok v, .ok v' =>
    if h : v = v' then isTrue (by rw [h]) else isFalse (by simp [h])

/-- Outcomes of the two plugin calls made during activation: the result of
`plugin_main_thread.audio_ports_ext()` and of `plugin_main_thread.activate(...)`.
The host treats the plugin as an opaque interface, so these are inputs of
the step. -/
structure ActivateEnv where
  audio_ports_res : Except Unit PluginAudioPortsExt
  activate_res : Except Unit Unit
deriving DecidableEq, Repr

/-- `PluginInstanceHost::activate`. Returns the updated host together with
either the classified error or the audio-port layout handed to the new
audio-thread counterpart (the audio-thread handle shares this host's state
word and flags, so the layout is the only extra payload). -/
def PluginInstanceHost.activate (h : PluginInstanceHost) (env : ActivateEnv) :
    PluginInstanceHost × Except ActivatePluginError PluginAudioPortsExt :=
  match h.can_activate with
  | .error e => (h, .error e)
  | .ok _ =>
    let h := match h.save_state with
      | some s => { h with save_state := some { s with activation_requested := true } }
      | none => h
    match env.audio_ports_res with
    | .error _ =>
      ({ h with state := .InactiveWithError }, .error .PluginFailedToGetAudioPortsExt)
    | .ok audio_ports =>
      let h := { h with audio_ports_ext := some audio_ports }
      let h := match h.save_state with
        | some s =>
          { h with save_state := some { s with audio_in_out_channels :=
              (audio_ports.total_in_channels, audio_ports.total_out_channels) } }
        | none => h
      match env.activate_res with
      | .ok _ =>
        ({ h with
            process_requested := true
            deactivate_requested := false
            state := .ActiveAndSleeping
            -- num_params is hard-coded to 5 in the source, so the queues
            -- are always constructed
            param_queues_present := true }, .ok audio_ports)
      | .error _ =>
        ({ h with state := .InactiveWithError }, .error .PluginSpecific)

/-- `PluginInstanceHost::schedule_deactivate`. -/
def PluginInstanceHost.schedule_deactivate (h : PluginInstanceHost) : PluginInstanceHost :=
  let h := match h.save_state with
    | some s => { h with save_state := some { s with activation_requested := false } }
    | none => h
  if !h.state.is_active then h
  else { h with deactivate_requested := true }

/-- `PluginInstanceHost::schedule_remove`. -/
def PluginInstanceHost.schedule_remove (h : PluginInstanceHost) : PluginInstanceHost :=
  PluginInstanceHost.schedule_deactivate { h with remove_requested := true }

/-- `OnIdleResult` from the source; `PluginActivated` carries the port layout
of the freshly activated instance. -/
inductive OnIdleResult where
  | Ok
  | PluginDeactivated
  | PluginActivated (audio_ports : PluginAudioPortsExt)
  | PluginReadyToRemove
  | PluginFailedToActivate (e : ActivatePluginError)
deriving DecidableEq, Repr

/-- Tail of `PluginInstanceHost::on_idle` (source lines 303-309): report
ready-to-remove when a removal is pending and the plugin is inactive. -/
def PluginInstanceHost.on_idle_finish (h : PluginInstanceHost) :
    PluginInstanceHost × OnIdleResult :=
  if h.remove_requested && !h.state.is_active then (h, .PluginReadyToRemove)
  else (h, .Ok)

/-- The deactivation branch of `PluginInstanceHost::on_idle` (source lines
275-301): deactivate only when the audio thread has parked the state at
`ActiveAndReadyToDeactivate`, then optionally re-activate on a pending
restart. -/
def PluginInstanceHost.on_idle_deactivate (h : PluginInstanceHost) (env : ActivateEnv) :
    PluginInstanceHost × OnIdleResult :=
  if h.deactivate_requested then
    if h.state = .ActiveAndReadyToDeactivate then
      let h := { h with state := .Inactive, deactivate_requested := false }
      if !h.remove_requested then
        if h.restart_requested then
          let h := { h with restart_requested := false }
          match h.activate env with
          | (h', .ok ports) => (h', .PluginActivated ports)
          | (h', .error e) => (h', .PluginFailedToActivate e)
        else (h, .PluginDeactivated)
      else h.on_idle_finish
    else h.on_idle_finish
  else h.on_idle_finish

/-- `PluginInstanceHost::on_idle`. `env` carries the outcomes of the plugin
calls a re-activation would make. -/
def PluginInstanceHost.on_idle (h : PluginInstanceHost) (env : ActivateEnv) :
    PluginInstanceHost × OnIdleResult :=
  if !h.main_thread_present then
    (h, if h.remove_requested then .PluginReadyToRemove else .Ok)
  else
    let h := if h.callback_requested then { h with callback_requested := false } else h
    if h.restart_requested && !h.remove_requested then
      if h.state.is_active then
        PluginInstanceHost.on_idle_deactivate { h with deactivate_requested := true } env
      else
        -- the inner `if self.restart_requested` re-load is always true here
        let h := { h with restart_requested := false }
        match h.activate env with
        | (h', .ok ports) => (h', .PluginActivated ports)
        | (h', .error e) => (h', .PluginFailedToActivate e)
    else h.on_idle_deactivate env

/-- The plugin-side inputs of one audio-thread `process` cycle: whether the
audio inputs (resp. outputs) are silent over `proc_info.frames`, whether
`start_processing` succeeds, and the status `process` returns. -/
structure AudioEnv where
  inputs_silent : Bool
  start_ok : Bool
  status : ProcessStatus
  outputs_silent : Bool
deriving DecidableEq, Repr

/-- Observable calls made by one audio-thread `process` cycle. -/
structure AudioFx where
  start_called : Bool
  process_called : Bool
  stop_called : Bool
  outputs_cleared : Bool
deriving DecidableEq, Repr

/-- Tail of `PluginInstanceHostAudioThread::process` (source lines 455-467):
after the status match, a plugin waiting for its tail goes to sleep (or to
ready-to-deactivate) once its outputs are silent. -/
def audio_process_tail_check (h : PluginInstanceHost) (env : AudioEnv) (fx : AudioFx) :
    PluginInstanceHost × AudioFx :=
  if h.state = .ActiveAndWaitingForTail && env.outputs_silent then
    ({ h with state :=
        if h.deactivate_requested then .ActiveAndReadyToDeactivate
        else .ActiveAndSleeping },
     { fx with stop_called := true })
  else (h, fx)

/-- Middle of `PluginInstanceHostAudioThread::process` (source lines 413-453):
run the plugin's `process` when the state is a processing one, then map the
returned status onto the state word. -/
def audio_process_run (h : PluginInstanceHost) (env : AudioEnv) (start_called : Bool) :
    PluginInstanceHost × AudioFx :=
  let status := if h.state.is_processing then env.status else ProcessStatus.Sleep
  let fx : AudioFx :=
    { start_called := start_called
      process_called := h.state.is_processing
      stop_called := false
      outputs_cleared := false }
  match status with
  | .Continue =>
    audio_process_tail_check { h with state := .ActiveAndProcessing } env fx
  | .ContinueIfNotQuiet =>
    audio_process_tail_check { h with state := .ActiveAndWaitingForQuiet } env fx
  | .Tail =>
    audio_process_tail_check { h with state := .ActiveAndWaitingForTail } env fx
  | .Sleep =>
    if h.state.is_processing then
      -- stop_processing, then park sleeping or ready-to-deactivate and return
      ({ h with state :=
          if h.deactivate_requested then .ActiveAndReadyToDeactivate
          else .ActiveAndSleeping },
       { fx with stop_called := true })
    else audio_process_tail_check h env fx
  | .Error =>
    audio_process_tail_check h env { fx with outputs_cleared := true }

/-- `PluginInstanceHostAudioThread::process` (source lines 335-467). The
parameter-queue draining writes no host state and is elided. Note the
source stubs the input-event check with `let has_in_events = true; // TODO`,
which this embedding reproduces. -/
def audio_process (h : PluginInstanceHost) (env : AudioEnv) :
    PluginInstanceHost × AudioFx :=
  let cleared : AudioFx :=
    { start_called := false, process_called := false
      stop_called := false, outputs_cleared := true }
  let state := h.state
  if !state.is_active then
    (h, cleared)
  else if h.deactivate_requested then
    ({ h with state := .ActiveAndReadyToDeactivate },
     { cleared with stop_called := state.is_processing })
  else if state = .ActiveWithError then
    (h, cleared)
  else if state = .ActiveAndWaitingForQuiet && env.inputs_silent then
    ({ h with state := .ActiveAndSleeping }, { cleared with stop_called := true })
  else if state.is_sleeping then
    let has_in_events := true
    if !h.process_requested && !has_in_events then
      (h, cleared)
    else
      let h := { h with process_requested := false }
      if !env.start_ok then
        ({ h with state := .ActiveWithError }, { cleared with start_called := true })
      else
        audio_process_run { h with state := .ActiveAndProcessing } env true
  else
    audio_process_run h env false

/-- One interleaving step of the per-plugin lifecycle machinery: either the
audio thread runs `process`, or the main thread runs `on_idle`, each with
some plugin behaviour. -/
def host_step (s s' : PluginInstanceHost) : Prop :=
  (∃ env : AudioEnv, s' = (audio_process s env).1) ∨
  (∃ env : ActivateEnv, s' = (s.on_idle env).1)

/-- `PortType` from `src/graph/mod.rs`. -/
inductive PortType where
  | Audio
  | Event
  | Note
deriving DecidableEq, Repr

/-- `PluginInstanceType` tags from `shared_pool` (spec section 3). -/
inductive PluginInstanceType where
  | Internal
  | Unloaded
  | GraphInput
  | GraphOutput
deriving DecidableEq, Repr

/-- A plugin instance identity: the abstract-graph node handle plus the
format tag (spec section 3; the shared display name carries no identity). -/
structure PluginInstanceID where
  node_ref : Nat
  format : PluginInstanceType
deriving DecidableEq, Repr

/-- Modelled from the spec (section 3): two plugin-instance identities are
equal iff their node handles are equal. The `PartialEq` impl lives in
`shared_pool.rs`, which is not under `src/`. -/
def pid_eq (a b : PluginInstanceID) : Bool :=
  a.node_ref == b.node_ref

/-- `PortChannelID` from `src/graph/mod.rs`. -/
structure PortChannelID where
  port_type : PortType
  port_stable_id : Nat
  is_input : Bool
  port_channel : Nat
deriving DecidableEq, Repr

/-- An edge of the abstract graph: endpoint node handles and the full port
key of each endpoint. -/
structure GEdge where
  port_type : PortType
  src_node : Nat
  src_port : PortChannelID
  dst_node : Nat
  dst_port : PortChannelID
deriving DecidableEq, Repr

/-- `PluginInstanceHostEntry` from `shared_pool`: the host, keyed by its
identity, with the port refs registered in the abstract graph (the keys of
`port_channels_refs`). -/
structure PluginInstanceHostEntry where
  id : PluginInstanceID
  host : PluginInstanceHost
  port_channels_refs : List PortChannelID
deriving DecidableEq, Repr

/-- A compiled schedule: the ordered task list (opaque task identifiers) and
the frame capacity it was compiled for. -/
structure Schedule where
  tasks : List Nat
  max_frames : Nat
deriving DecidableEq, Repr

/-- `Schedule::empty(max_frames)`. -/
def Schedule.empty (max_frames : Nat) : Schedule :=
  { tasks := [], max_frames := max_frames }

/-- `GraphCompilerError` (`VerifierError` / `UnexpectedError`); the snapshots
carried by the source variants are not inspected by `AudioGraph::compile`. -/
inductive GraphCompilerError where
  | VerifierError
  | UnexpectedError
deriving DecidableEq, Repr

/-- The main-thread `AudioGraph` (`src/graph/mod.rs`): the plugin pool with
its iteration order made explicit as a list, the abstract graph (node
handles and edges), the designated graph-in/out identities, and the shared
schedule cell (written only by this side). -/
structure AudioGraph where
  pool : List PluginInstanceHostEntry
  nodes : List Nat
  edges : List GEdge
  graph_in_node_id : PluginInstanceID
  graph_out_node_id : PluginInstanceID
  graph_in_channels : Nat
  graph_out_channels : Nat
  next_node_ref : Nat
  shared_schedule : Schedule
  max_frames : Nat
deriving DecidableEq, Repr

/-- Pool lookup, keyed by plugin-instance identity (node-handle equality). -/
def pool_get (pool : List PluginInstanceHostEntry) (id : PluginInstanceID) :
    Option PluginInstanceHostEntry :=
  pool.find? (fun e => pid_eq e.id id)

/-- Fuel-bounded reachability along directed edges, used for cycle
detection: `reaches edges fuel a b` holds when a path from node `a` to node
`b` of length at most `fuel` exists (including the empty path `a = b`). -/
def reaches (edges : List GEdge) : Nat → Nat → Nat → Bool
  | 0, a, b => a == b
  | fuel + 1, a, b =>
    a == b ||
      (edges.filter (fun e => e.src_node == a)).any
        (fun e => reaches edges fuel e.dst_node b)

/-- Errors of the abstract graph's `connect`. -/
inductive AGError where
  | Cycle
  | Other
deriving DecidableEq, Repr

/-- Modelled from the spec (sections 3 and 4.3): `audio_graph::Graph::connect`
lives in the `audio_graph` crate, which is not under `src/`. It fails with
`Cycle` when the new edge would close a directed cycle (the destination
node already reaches the source node), fails otherwise when an endpoint is
missing, and on success appends the edge; the graph is unchanged on error. -/
def ag_connect (g : AudioGraph) (src_node : Nat) (src_port : PortChannelID)
    (dst_node : Nat) (dst_port : PortChannelID) (ptype : PortType) :
    Except AGError (List GEdge) :=
  if !(g.nodes.contains src_node) || !(g.nodes.contains dst_node) then .error .Other
  else if reaches g.edges (g.edges.length + 1) dst_node src_node then .error .Cycle
  else .ok (g.edges ++
    [{ port_type := ptype, src_node := src_node, src_port := src_port,
       dst_node := dst_node, dst_port := dst_port }])

/-- `Edge` from `src/graph/mod.rs`. -/
structure Edge where
  edge_type : PortType
  src_plugin_id : PluginInstanceID
  dst_plugin_id : PluginInstanceID
  src_port_stable_id : Nat
  src_port_channel : Nat
  dst_port_stable_id : Nat
  dst_port_channel : Nat
deriving DecidableEq, Repr

/-- `ConnectEdgeErrorType` from `src/graph/mod.rs` (the `Unkown` spelling is
the source's). -/
inductive ConnectEdgeErrorType where
  | SrcPluginDoesNotExist
  | DstPluginDoesNotExist
  | SrcPortDoesNotExist
  | DstPortDoesNotExist
  | Cycle
  | Unkown
deriving DecidableEq, Repr

/-- `ConnectEdgeError` from `src/graph/mod.rs`. -/
structure ConnectEdgeError where
  error_type : ConnectEdgeErrorType
  edge : Edge
deriving DecidableEq, Repr

/-- The source-port key built by `connect_edge` from an edge request. -/
def src_port_of (edge : Edge) : PortChannelID :=
  { port_type := edge.edge_type, port_stable_id := edge.src_port_stable_id,
    is_input := false, port_channel := edge.src_port_channel }

/-- The destination-port key built by `connect_edge` from an edge request. -/
def dst_port_of (edge : Edge) : PortChannelID :=
  { port_type := edge.edge_type, port_stable_id := edge.dst_port_stable_id,
    is_input := true, port_channel := edge.dst_port_channel }

/-- `AudioGraph::connect_edge` (source lines 324-396). -/
def AudioGraph.connect_edge (g : AudioGraph) (edge : Edge) :
    AudioGraph × Except ConnectEdgeError Unit :=
  match pool_get g.pool edge.src_plugin_id with
  | none => (g, .error { error_type := .SrcPluginDoesNotExist, edge := edge })
  | some src_entry =>
    match pool_get g.pool edge.dst_plugin_id with
    | none => (g, .error { error_type := .DstPluginDoesNotExist, edge := edge })
    | some dst_entry =>
      if !(src_entry.port_channels_refs.contains (src_port_of edge)) then
        (g, .error { error_type := .SrcPortDoesNotExist, edge := edge })
      else if !(dst_entry.port_channels_refs.contains (dst_port_of edge)) then
        (g, .error { error_type := .DstPortDoesNotExist, edge := edge })
      else
        match ag_connect g src_entry.id.node_ref (src_port_of edge)
            dst_entry.id.node_ref (dst_port_of edge) edge.edge_type with
        | .ok edges' => ({ g with edges := edges' }, .ok ())
        | .error .Cycle => (g, .error { error_type := .Cycle, edge := edge })
        | .error .Other => (g, .error { error_type := .Unkown, edge := edge })

/-- All edges incident to a node, `audio_graph`'s `node_edges`. -/
def AudioGraph.node_edges (g : AudioGraph) (node : Nat) : List GEdge :=
  g.edges.filter (fun e => e.src_node == node || e.dst_node == node)

/-- One iteration of the loop in `AudioGraph::remove_plugin_instances`
(source lines 288-319), threading the graph, the removed set and the
affected node handles. -/
def remove_plugin_step (acc : AudioGraph × List PluginInstanceID × List Nat)
    (id : PluginInstanceID) : AudioGraph × List PluginInstanceID × List Nat :=
  let (g, removed, affected) := acc
  if pid_eq id g.graph_in_node_id || pid_eq id g.graph_out_node_id then acc
  else if removed.any (fun x => pid_eq x id) then acc
  else if g.nodes.contains id.node_ref then
    let es := g.node_edges id.node_ref
    let affected := affected ++
      (es.filter (fun e => e.dst_node == id.node_ref)).map (fun e => e.src_node) ++
      (es.filter (fun e => e.src_node == id.node_ref)).map (fun e => e.dst_node)
    let pool := g.pool.map (fun e =>
      if pid_eq e.id id then { e with host := e.host.schedule_remove } else e)
    let nodes := g.nodes.filter (fun n => !(n == id.node_ref))
    let edges := g.edges.filter
      (fun e => !(e.src_node == id.node_ref || e.dst_node == id.node_ref))
    ({ g with pool := pool, nodes := nodes, edges := edges }, removed ++ [id], affected)
  else
    -- `get_plugin_edges` failed: the id is inserted into and immediately
    -- removed from the removed set, so the accumulator is unchanged
    (g, removed, affected)

/-- `AudioGraph::remove_plugin_instances` (source lines 281-322); the
`affected_plugins` out-parameter is returned as the third component. -/
def AudioGraph.remove_plugin_instances (g : AudioGraph) (ids : List PluginInstanceID) :
    AudioGraph × List PluginInstanceID × List Nat :=
  ids.foldl remove_plugin_step (g, [], [])

/-- `EdgeSaveState`. Modelled from the spec (section 6): `save_state.rs` is
not under `src/`; the record holds the port type, the two endpoint indices
and the stable-id/channel of each endpoint. -/
structure EdgeSaveState where
  edge_type : PortType
  src_plugin_i : Nat
  dst_plugin_i : Nat
  src_port_stable_id : Nat
  src_port_channel : Nat
  dst_port_stable_id : Nat
  dst_port_channel : Nat
deriving DecidableEq, Repr

/-- `AudioGraphSaveState`: the ordered plugin records and edge records. -/
structure AudioGraphSaveState where
  plugins : List PluginSaveState
  edges : List EdgeSaveState
deriving DecidableEq, Repr

/-- Association lookup used for `node_ref_to_index` (a `FnvHashMap` in the
source); `.get(..).unwrap()` is embedded as a lookup with default 0. -/
def lookup_index (l : List (Nat × Nat)) (k : Nat) : Nat :=
  ((l.find? (fun p => p.1 == k)).map Prod.snd).getD 0

/-- The edge record written by `AudioGraph::collect_save_state` for one
abstract-graph edge. -/
def mk_edge_save_state (node_ref_to_index : List (Nat × Nat)) (ed : GEdge) :
    EdgeSaveState :=
  { edge_type := ed.port_type
    src_plugin_i := lookup_index node_ref_to_index ed.src_node
    dst_plugin_i := lookup_index node_ref_to_index ed.dst_node
    src_port_stable_id := ed.src_port.port_stable_id
    src_port_channel := ed.src_port.port_channel
    dst_port_stable_id := ed.dst_port.port_stable_id
    dst_port_channel := ed.dst_port.port_channel }

/-- `AudioGraph::collect_save_state` (source lines 501-549): indices are the
enumerate positions of the pool's iteration; the graph-in/out entries are
skipped in the plugin list but still consume an index; edges are gathered
by iterating every node's incident edge list. -/
def AudioGraph.collect_save_state (g : AudioGraph) : AudioGraphSaveState :=
  let node_ref_to_index : List (Nat × Nat) :=
    g.pool.enum.map (fun p => (p.2.id.node_ref, p.1))
  let plugins := g.pool.filterMap (fun e =>
    if e.id.node_ref == g.graph_in_node_id.node_ref
        || e.id.node_ref == g.graph_out_node_id.node_ref then
      none
    else
      some (e.host.save_state.getD { key := 0, audio_in_out_channels := (0, 0),
                                     activation_requested := false }))
  let edges := g.pool.flatMap (fun e =>
    (g.node_edges e.id.node_ref).map (mk_edge_save_state node_ref_to_index))
  { plugins := plugins, edges := edges }

/-- The graph-in-node output port for channel `i` (from `reset`). -/
def mk_graph_in_port (i : Nat) : PortChannelID :=
  { port_type := .Audio, port_stable_id := 0, is_input := false, port_channel := i }

/-- The graph-out-node input port for channel `i` (from `reset`). -/
def mk_graph_out_port (i : Nat) : PortChannelID :=
  { port_type := .Audio, port_stable_id := 0, is_input := true, port_channel := i }

/-- The host entry of the graph-in/out pseudo-plugins
(`PluginInstanceHost::new_graph_in` / `new_graph_out`): no save state, no
pending requests. -/
def graph_io_host : PluginInstanceHost :=
  PluginInstanceHost.new none true false false false

/-- `AudioGraph::reset` (source lines 551-677): clear the pool and the
abstract graph, install the empty schedule, and re-create the graph-in and
graph-out nodes (handles 0 and 1 in the fresh graph) with their audio
ports. The bounded idle-spin waiting for audio-thread confirmation is a
real-time concern with no effect on the resulting structure. -/
def AudioGraph.reset (g : AudioGraph) : AudioGraph :=
  let gin : PluginInstanceID := { node_ref := 0, format := .GraphInput }
  let gout : PluginInstanceID := { node_ref := 1, format := .GraphOutput }
  { pool :=
      [{ id := gin, host := graph_io_host,
         port_channels_refs := (List.range g.graph_in_channels).map mk_graph_in_port },
       { id := gout, host := graph_io_host,
         port_channels_refs := (List.range g.graph_out_channels).map mk_graph_out_port }]
    nodes := [0, 1]
    edges := []
    graph_in_node_id := gin
    graph_out_node_id := gout
    graph_in_channels := g.graph_in_channels
    graph_out_channels := g.graph_out_channels
    next_node_ref := 2
    shared_schedule := Schedule.empty g.max_frames
    max_frames := g.max_frames }

/-- `AudioGraph::add_new_plugin_instance` as invoked during a restore.
Modelled in part from the spec (sections 4.6(b) and 6): plugin creation
goes through the external plugin scanner and activation queries the
plugin's port layout, neither of which is under `src/`. `ports_of_key`
gives the port layout a plugin with the given save-state key reports on a
successful activation; a plugin whose save state requests activation is
activated and receives those ports, otherwise its node has no ports yet. -/
def AudioGraph.add_new_plugin_instance (g : AudioGraph)
    (ports_of_key : Nat → List PortChannelID) (ss : PluginSaveState) :
    AudioGraph × PluginInstanceID :=
  let id : PluginInstanceID := { node_ref := g.next_node_ref, format := .Internal }
  let ports := if ss.activation_requested then ports_of_key ss.key else []
  ({ g with
      pool := g.pool ++
        [{ id := id, host := PluginInstanceHost.new (some ss) true false false false,
           port_channels_refs := ports }]
      nodes := g.nodes ++ [id.node_ref]
      next_node_ref := g.next_node_ref + 1 }, id)

/-- The index convention of `restore_from_save_state` (source lines
712-726): save-state index 0 is graph-in, 1 is graph-out, and `i ≥ 2` is
the `(i-2)`-th restored plugin. -/
def restore_edge_endpoint (g : AudioGraph) (ids : List PluginInstanceID) (i : Nat) :
    PluginInstanceID :=
  if i == 0 then g.graph_in_node_id
  else if i == 1 then g.graph_out_node_id
  else ids.getD (i - 2) g.graph_in_node_id

/-- `AudioGraph::restore_from_save_state` (source lines 679-753): reset,
re-create each plugin in order, then re-apply the edge records, skipping
records with out-of-range indices and ignoring `connect_edge` errors
(logged in the source). -/
def AudioGraph.restore_from_save_state (g : AudioGraph)
    (ports_of_key : Nat → List PortChannelID) (ss : AudioGraphSaveState) :
    AudioGraph × List PluginInstanceID :=
  let g := g.reset
  let step := fun (acc : AudioGraph × List PluginInstanceID) (ps : PluginSaveState) =>
    let (g', id) := acc.1.add_new_plugin_instance ports_of_key ps
    (g', acc.2 ++ [id])
  let (g, ids) := ss.plugins.foldl step (g, [])
  let g := ss.edges.foldl (fun (g : AudioGraph) (es : EdgeSaveState) =>
    if ids.length + 2 ≤ es.src_plugin_i then g
    else if ids.length + 2 ≤ es.dst_plugin_i then g
    else
      let edge : Edge :=
        { edge_type := es.edge_type
          src_plugin_id := restore_edge_endpoint g ids es.src_plugin_i
          dst_plugin_id := restore_edge_endpoint g ids es.dst_plugin_i
          src_port_stable_id := es.src_port_stable_id
          src_port_channel := es.src_port_channel
          dst_port_stable_id := es.dst_port_stable_id
          dst_port_channel := es.dst_port_channel }
      (g.connect_edge edge).1) g
  (g, ids)

/-- `AudioGraph::compile` (source lines 759-783). The graph compiler
(`compiler::compile_graph`, under `src/graph/compiler/`, not inspected by
this function) either produces a schedule or an error; its outcome is the
step's input. On success the new schedule is published to the shared cell,
on error the empty schedule is installed instead. -/
def AudioGraph.compile (g : AudioGraph)
    (compiler_result : Except GraphCompilerError Schedule) :
    AudioGraph × Except GraphCompilerError Unit :=
  match compiler_result with
  | .ok schedule => ({ g with shared_schedule := schedule }, .ok ())
  | .error e =>
    ({ g with shared_schedule := Schedule.empty g.max_frames }, .error e)

/-- `DeactivatedPluginTask` from `src/graph/schedule/task.rs`: paired
(input, output) buffer ids to pass audio through, plus extra output buffer
ids to clear. -/
structure DeactivatedPluginTask where
  audio_through : List (Nat × Nat)
  extra_audio_out : List Nat
deriving DecidableEq, Repr

/-- The audio-buffer store: sample lists indexed by buffer id. Samples are
only copied or zeroed by the task, never computed with, so they are
embedded as rationals. -/
def BufStore : Type := Nat → List ℚ

/-- Replace the contents of one buffer. -/
def write_buf (st : BufStore) (b : Nat) (v : List ℚ) : BufStore :=
  fun j => if j = b then v else st j

/-- `out[0..n].copy_from_slice(in[0..n])`: the first `n` samples come from
the source, the rest of the destination is untouched. -/
def copy_first (n : Nat) (src dst : List ℚ) : List ℚ :=
  src.take n ++ dst.drop n

/-- `out[0..n].fill(0.0)`: the first `n` samples are zeroed, the rest is
untouched. -/
def zero_first (n : Nat) (dst : List ℚ) : List ℚ :=
  List.replicate n 0 ++ dst.drop n

/-- The first loop of `DeactivatedPluginTask::process`: pass audio through
the paired main ports, in order. -/
def through_pass (n : Nat) (ps : List (Nat × Nat)) (st : BufStore) : BufStore :=
  ps.foldl (fun st p => write_buf st p.2 (copy_first n (st p.1) (st p.2))) st

/-- The second loop of `DeactivatedPluginTask::process`: clear the extra
output buffers. -/
def extra_clear (n : Nat) (bs : List Nat) (st : BufStore) : BufStore :=
  bs.foldl (fun st b => write_buf st b (zero_first n (st b))) st

/-- `DeactivatedPluginTask::process` (source lines 140-165) over
`n = proc_info.frames`. -/
def DeactivatedPluginTask.process (t : DeactivatedPluginTask) (n : Nat)
    (st : BufStore) : BufStore :=
  extra_clear n t.extra_audio_out (through_pass n t.audio_through st)

/-- `AudioGraph::new` (source lines 100-167): build the initial state and
run `reset`. -/
def AudioGraph.new (graph_in_channels graph_out_channels max_frames : Nat) : AudioGraph :=
  AudioGraph.reset
    { pool := []
      nodes := []
      edges := []
      graph_in_node_id := { node_ref := 0, format := .GraphInput }
      graph_out_node_id := { node_ref := 1, format := .GraphOutput }
      graph_in_channels := graph_in_channels
      graph_out_channels := graph_out_channels
      next_node_ref := 0
      shared_schedule := Schedule.empty max_frames
      max_frames := max_frames }

/-! Concrete instances used by the witnesses and counterexamples below. -/

/-- A freshly loaded host with a main-thread handle and no pending requests. -/
def loaded_host : PluginInstanceHost :=
  PluginInstanceHost.new none true false false false

/-- A sample activation where both plugin calls succeed, reporting a stereo
in/out layout. -/
def activate_demo_env : ActivateEnv :=
  { audio_ports_res := .ok { total_in_channels := 2, total_out_channels := 2 }
    activate_res := .ok () }

/-- A host whose previous activation failed: `InactiveWithError` with the
main-thread handle still present and no restart pending (this is exactly
the state `activate` leaves behind on a plugin error). -/
def errored_inactive_host : PluginInstanceHost :=
  { loaded_host with state := .InactiveWithError }

/-- A host without a main-thread handle whose removal has been requested. -/
def removing_unloaded_host : PluginInstanceHost :=
  { PluginInstanceHost.new none false false false false with remove_requested := true }

/-- A host sleeping on the audio thread with no wake-up request pending. -/
def sleeping_host : PluginInstanceHost :=
  { loaded_host with state := .ActiveAndSleeping, param_queues_present := true }

/-- An audio cycle where the plugin would start successfully and keep
processing. -/
def sleeping_env : AudioEnv :=
  { inputs_silent := true, start_ok := true, status := .Continue, outputs_silent := false }

/-- A host parked at `ActiveAndReadyToDeactivate` with the deactivation
request still set. -/
def rtd_host : PluginInstanceHost :=
  { loaded_host with state := .ActiveAndReadyToDeactivate, deactivate_requested := true }

/-- The host after the main thread deactivates `rtd_host`. -/
def deactivated_host : PluginInstanceHost :=
  { rtd_host with state := .Inactive, deactivate_requested := false }

/-- A two-state trace: the main thread observes ready-to-deactivate and
deactivates. -/
def demo_trace : Nat → PluginInstanceHost :=
  fun i => if i = 0 then rtd_host else deactivated_host

/-- Plugin-call outcomes for a main-thread step of the demo trace (never
consulted on this path). -/
def demo_main_env : ActivateEnv :=
  { audio_ports_res := .ok { total_in_channels := 0, total_out_channels := 0 }
    activate_res := .ok () }

/-- The port layout of the demo mono plugins: one audio-in channel and one
audio-out channel, both with stable id 0. -/
def demo_ports_of_key : Nat → List PortChannelID :=
  fun _ =>
    [{ port_type := .Audio, port_stable_id := 0, is_input := true, port_channel := 0 },
     { port_type := .Audio, port_stable_id := 0, is_input := false, port_channel := 0 }]

/-- The demo plugin save state: key 5, mono in/out, activation requested. -/
def demo_save_state : PluginSaveState :=
  { key := 5, audio_in_out_channels := (1, 1), activation_requested := true }

/-- A fresh mono graph with two mono plugins A (node 2) and B (node 3). -/
def two_plugin_graph : AudioGraph :=
  (((AudioGraph.new 1 1 64).add_new_plugin_instance demo_ports_of_key
      demo_save_state).1.add_new_plugin_instance demo_ports_of_key demo_save_state).1

/-- The edge request A.out -> B.in. -/
def edge_a_to_b : Edge :=
  { edge_type := .Audio
    src_plugin_id := { node_ref := 2, format := .Internal }
    dst_plugin_id := { node_ref := 3, format := .Internal }
    src_port_stable_id := 0, src_port_channel := 0
    dst_port_stable_id := 0, dst_port_channel := 0 }

/-- The edge request B.out -> A.in, which would close a cycle. -/
def edge_b_to_a : Edge :=
  { edge_type := .Audio
    src_plugin_id := { node_ref := 3, format := .Internal }
    dst_plugin_id := { node_ref := 2, format := .Internal }
    src_port_stable_id := 0, src_port_channel := 0
    dst_port_stable_id := 0, dst_port_channel := 0 }

/-- The demo graph after connecting A.out -> B.in. -/
def graph_with_a_to_b : AudioGraph :=
  (two_plugin_graph.connect_edge edge_a_to_b).1

/-- The pool entry of plugin B inside `graph_with_a_to_b`. -/
def entry_b : PluginInstanceHostEntry :=
  { id := { node_ref := 3, format := .Internal }
    host := PluginInstanceHost.new (some demo_save_state) true false false false
    port_channels_refs := demo_ports_of_key 5 }

/-- The pool entry of plugin A inside `graph_with_a_to_b`. -/
def entry_a : PluginInstanceHostEntry :=
  { id := { node_ref := 2, format := .Internal }
    host := PluginInstanceHost.new (some demo_save_state) true false false false
    port_channels_refs := demo_ports_of_key 5 }

/-- A pool entry for a plugin A on node handle 2 with the demo layout. -/
def c6_entry_a : PluginInstanceHostEntry :=
  { id := { node_ref := 2, format := .Internal }
    host := PluginInstanceHost.new (some demo_save_state) true false false false
    port_channels_refs := demo_ports_of_key 5 }

/-- The graph-in pool entry of a mono graph. -/
def c6_gin_entry : PluginInstanceHostEntry :=
  { id := { node_ref := 0, format := .GraphInput }
    host := graph_io_host
    port_channels_refs := [mk_graph_in_port 0] }

/-- The graph-out pool entry of a mono graph. -/
def c6_gout_entry : PluginInstanceHostEntry :=
  { id := { node_ref := 1, format := .GraphOutput }
    host := graph_io_host
    port_channels_refs := [mk_graph_out_port 0] }

/-- The abstract edge graph-in.ch0 -> A.in. -/
def c6_edge : GEdge :=
  { port_type := .Audio
    src_node := 0
    src_port := mk_graph_in_port 0
    dst_node := 2
    dst_port := { port_type := .Audio, port_stable_id := 0, is_input := true, port_channel := 0 } }

/-- A mono graph holding plugin A connected after graph-in, whose pool
iteration happens to enumerate A before the graph-in and graph-out
entries. `FnvHashMap` iteration order is arbitrary, so this order is a
legitimate pool state. -/
def c6_graph : AudioGraph :=
  { pool := [c6_entry_a, c6_gin_entry, c6_gout_entry]
    nodes := [0, 1, 2]
    edges := [c6_edge]
    graph_in_node_id := { node_ref := 0, format := .GraphInput }
    graph_out_node_id := { node_ref := 1, format := .GraphOutput }
    graph_in_channels := 1
    graph_out_channels := 1
    next_node_ref := 3
    shared_schedule := Schedule.empty 64
    max_frames := 64 }

/-- A stereo demo graph for the compile witness. -/
def demo_graph : AudioGraph := AudioGraph.new 2 2 64

/-- A non-empty schedule for the compile witness. -/
def demo_sched : Schedule := { tasks := [7], max_frames := 64 }

/-- A passthrough task copying buffer 0 into buffer 1 and clearing buffer 2. -/
def demo_task : DeactivatedPluginTask :=
  { audio_through := [(0, 1)], extra_audio_out := [2] }

/-- A concrete buffer store for the passthrough witness. -/
def demo_store : BufStore :=
  fun j => if j = 0 then [5, 6] else if j = 1 then [7, 8] else if j = 2 then [9, 10] else []

/-- A removal request naming plugin A and the graph-in node. -/
def remove_demo_ids : List PluginInstanceID :=
  [{ node_ref := 2, format := .Internal }, { node_ref := 0, format := .GraphInput }]

/-! ## Theorems -/

/-- C1: a successful `PluginInstanceHost::activate` leaves the lifecycle
state at `ActiveAndSleeping`, clears `deactivate_requested`, sets
`process_requested`, and returns the audio-thread handle's port layout (the
layout the plugin reported); if the plugin's `audio_ports_ext` or
`activate` call fails, the state becomes `InactiveWithError` and the
classified error is returned. -/
theorem activate_spec (h : PluginInstanceHost) (env : ActivateEnv) :
    (∀ ports, (h.activate env).2 = .ok ports →
      (h.activate env).1.state = .ActiveAndSleeping ∧
      (h.activate env).1.deactivate_requested = false ∧
      (h.activate env).1.process_requested = true ∧
      env.audio_ports_res = .ok ports) ∧
    (h.can_activate = .ok () → env.audio_ports_res = .error () →
      (h.activate env).1.state = .InactiveWithError ∧
      (h.activate env).2 = .error .PluginFailedToGetAudioPortsExt) ∧
    (∀ ports, h.can_activate = .ok () → env.audio_ports_res = .ok ports →
      env.activate_res = .error () →
      (h.activate env).1.state = .InactiveWithError ∧
      (h.activate env).2 = .error .PluginSpecific) := by
  obtain ⟨apr, ar⟩ := env
  cases hca : h.can_activate <;> cases apr <;> cases ar <;>
    cases hss : h.save_state <;>
      simp [PluginInstanceHost.activate, hca, hss]

/-- Witness for C1: activating a freshly loaded host with both plugin calls
succeeding yields the sleeping state, the cleared/set flags, and the
reported stereo layout. -/
theorem activate_spec_witness :
    (loaded_host.activate activate_demo_env).1.state = .ActiveAndSleeping ∧
    (loaded_host.activate activate_demo_env).1.deactivate_requested = false ∧
    (loaded_host.activate activate_demo_env).1.process_requested = true ∧
    activate_demo_env.audio_ports_res =
      .ok { total_in_channels := 2, total_out_channels := 2 } :=
  (activate_spec loaded_host activate_demo_env).1
    { total_in_channels := 2, total_out_channels := 2 } (by decide)

/-- Counterexample for C2: `can_activate` also returns Ok when the state is
`InactiveWithError` (a state reachable after a failed activation), so "Ok
exactly when the lifecycle state is Inactive" is false. -/
theorem can_activate_ok_beyond_inactive :
    errored_inactive_host.can_activate = .ok () ∧
    errored_inactive_host.restart_requested = false ∧
    errored_inactive_host.main_thread_present = true ∧
    errored_inactive_host.state ≠ .Inactive := by decide

/-- C2 (amended): `can_activate` returns Ok exactly when the state is not an
active state (`Inactive` or `InactiveWithError`), `restart_requested` is
clear and a main-thread handle is present; otherwise it fails with
`NotLoaded` (no handle), `AlreadyActive` (active state), or
`RestartScheduled` (restart pending), and with no other error. -/
theorem can_activate_spec (h : PluginInstanceHost) :
    (h.can_activate = .ok () ↔
      (h.main_thread_present = true ∧ h.state.is_active = false ∧
        h.restart_requested = false)) ∧
    (h.main_thread_present = false → h.can_activate = .error .NotLoaded) ∧
    (h.main_thread_present = true → h.state.is_active = true →
      h.can_activate = .error .AlreadyActive) ∧
    (h.main_thread_present = true → h.state.is_active = false →
      h.restart_requested = true → h.can_activate = .error .RestartScheduled) := by
  cases hmt : h.main_thread_present <;> cases hac : h.state.is_active <;>
    cases hr : h.restart_requested <;>
      simp [PluginInstanceHost.can_activate, hmt, hac, hr]

/-- Witness for C2's amended claim: a handle-less host is refused with
`NotLoaded`, and the errored-inactive host is accepted. -/
theorem can_activate_spec_witness :
    (PluginInstanceHost.new none false false false false).can_activate =
      .error .NotLoaded ∧
    errored_inactive_host.can_activate = .ok () :=
  ⟨(can_activate_spec (PluginInstanceHost.new none false false false false)).2.1 rfl,
   (can_activate_spec errored_inactive_host).1.mpr (by decide)⟩

/-- C3 (divergence witness): on a sleeping plugin with `process_requested`
clear and no input events, the audio-thread `process` of
`src/graph/plugin_host/mod.rs` does NOT return early: because the source
stubs `has_in_events` to `true` (the `// TODO` at line 392), it calls
`start_processing`, moves the state to `ActiveAndProcessing`, calls the
plugin's `process`, and does not clear the outputs — contradicting the
claimed early return. -/
theorem sleeping_no_wake_is_stubbed :
    sleeping_host.state = .ActiveAndSleeping ∧
    sleeping_host.process_requested = false ∧
    (audio_process sleeping_host sleeping_env).2.start_called = true ∧
    (audio_process sleeping_host sleeping_env).2.process_called = true ∧
    (audio_process sleeping_host sleeping_env).2.outputs_cleared = false ∧
    (audio_process sleeping_host sleeping_env).1.state = .ActiveAndProcessing := by
  decide

/-- C7: `AudioGraph::compile` publishes the freshly compiled schedule on
success; on any compiler error it installs the empty schedule compiled for
`max_frames` — never the partially built one and never the previous one. -/
theorem compile_schedule_cell_spec (g : AudioGraph)
    (r : Except GraphCompilerError Schedule) :
    (∀ e, r = .error e →
      (g.compile r).1.shared_schedule = Schedule.empty g.max_frames ∧
      (g.compile r).2 = .error e) ∧
    (∀ e, r = .error e → g.shared_schedule ≠ Schedule.empty g.max_frames →
      (g.compile r).1.shared_schedule ≠ g.shared_schedule) ∧
    (∀ s, r = .ok s →
      (g.compile r).1.shared_schedule = s ∧ (g.compile r).2 = .ok ()) := by
  cases r <;> simp [AudioGraph.compile]
  intro hne
  exact fun hc => hne hc.symm

/-- Witness for C7: a failing compile on the demo graph installs the empty
schedule; a successful compile installs the compiled one. -/
theorem compile_schedule_cell_spec_witness :
    (demo_graph.compile (.error .VerifierError)).1.shared_schedule =
      Schedule.empty demo_graph.max_frames ∧
    (demo_graph.compile (.ok demo_sched)).1.shared_schedule = demo_sched :=
  ⟨((compile_schedule_cell_spec demo_graph (.error .VerifierError)).1
      .VerifierError rfl).1,
   ((compile_schedule_cell_spec demo_graph (.ok demo_sched)).2.2 demo_sched rfl).1⟩

/-- C10: `PluginInstanceHost::new` always yields a host whose lifecycle
state reads `Inactive` — also without a main-thread handle, because the
`InactiveWithError` write targets a state cell that the constructor then
replaces with a fresh one — and `on_idle` on any handle-less host returns
`PluginReadyToRemove` exactly when `remove_requested` is set (`Ok`
otherwise) while leaving the host untouched. -/
theorem new_host_state_spec :
    (∀ ss mt r p c, (PluginInstanceHost.new ss mt r p c).state = .Inactive) ∧
    (∀ (h : PluginInstanceHost) (env : ActivateEnv), h.main_thread_present = false →
      h.on_idle env =
        (h, if h.remove_requested then .PluginReadyToRemove else .Ok)) := by
  constructor
  · intro ss mt r p c
    rfl
  · intro h env hmt
    simp [PluginInstanceHost.on_idle, hmt]

/-- Witness for C10: a handle-less host constructed by `new` reads
`Inactive`, and after a removal request its idle tick reports
ready-to-remove without a state change. -/
theorem new_host_state_spec_witness :
    (PluginInstanceHost.new none false false false false).state = .Inactive ∧
    removing_unloaded_host.on_idle demo_main_env =
      (removing_unloaded_host, .PluginReadyToRemove) := by
  refine ⟨(new_host_state_spec).1 none false false false false, ?_⟩
  have h2 := (new_host_state_spec).2 removing_unloaded_host demo_main_env (by decide)
  simpa using h2

/-- An active lifecycle state is not `Inactive`. -/
theorem is_active_ne_inactive {s : PluginState} (h : s.is_active = true) :
    s ≠ .Inactive := by
  intro he
  subst he
  simp [PluginState.is_active] at h

/-- The tail check leaves the state alone or writes ready-to-deactivate or
sleeping. -/
theorem audio_process_tail_check_state (h : PluginInstanceHost) (env : AudioEnv)
    (fx : AudioFx) :
    (audio_process_tail_check h env fx).1.state = h.state ∨
    (audio_process_tail_check h env fx).1.state = .ActiveAndReadyToDeactivate ∨
    (audio_process_tail_check h env fx).1.state = .ActiveAndSleeping := by
  unfold audio_process_tail_check
  split
  · split <;> simp
  · simp

/-- The post-sleep part of the audio cycle leaves the state alone or writes
one of the active states. -/
theorem audio_process_run_state (h : PluginInstanceHost) (env : AudioEnv) (sc : Bool) :
    (audio_process_run h env sc).1.state = h.state ∨
    (audio_process_run h env sc).1.state = .ActiveAndReadyToDeactivate ∨
    (audio_process_run h env sc).1.state = .ActiveAndSleeping ∨
    (audio_process_run h env sc).1.state = .ActiveAndProcessing ∨
    (audio_process_run h env sc).1.state = .ActiveAndWaitingForQuiet ∨
    (audio_process_run h env sc).1.state = .ActiveAndWaitingForTail := by
  unfold audio_process_run
  split
  · next hp =>
    cases env.status
    · rcases audio_process_tail_check_state { h with state := .ActiveAndProcessing } env
        { start_called := sc, process_called := h.state.is_processing,
          stop_called := false, outputs_cleared := false } with hc | hc | hc <;> simp [hc]
    · rcases audio_process_tail_check_state { h with state := .ActiveAndWaitingForQuiet } env
        { start_called := sc, process_called := h.state.is_processing,
          stop_called := false, outputs_cleared := false } with hc | hc | hc <;> simp [hc]
    · rcases audio_process_tail_check_state { h with state := .ActiveAndWaitingForTail } env
        { start_called := sc, process_called := h.state.is_processing,
          stop_called := false, outputs_cleared := false } with hc | hc | hc <;> simp [hc]
    · simp only [hp, if_true]
      split <;> simp
    · rcases audio_process_tail_check_state h env
        { start_called := sc, process_called := h.state.is_processing,
          stop_called := false, outputs_cleared := true } with hc | hc | hc <;> simp [hc]
  · next hp =>
    simp only [hp]
    rcases audio_process_tail_check_state h env
      { start_called := sc, process_called := false,
        stop_called := false, outputs_cleared := false } with hc | hc | hc <;> simp [hc]

/-- The states an audio-thread `process` cycle can leave behind: the input
state or one of the active states it writes (it never writes `Inactive` or
`InactiveWithError`). -/
theorem audio_process_state_range (h : PluginInstanceHost) (env : AudioEnv) :
    (audio_process h env).1.state = h.state ∨
    (audio_process h env).1.state = .ActiveAndReadyToDeactivate ∨
    (audio_process h env).1.state = .ActiveAndSleeping ∨
    (audio_process h env).1.state = .ActiveWithError ∨
    (audio_process h env).1.state = .ActiveAndProcessing ∨
    (audio_process h env).1.state = .ActiveAndWaitingForQuiet ∨
    (audio_process h env).1.state = .ActiveAndWaitingForTail := by
  unfold audio_process
  by_cases h1 : h.state.is_active = false
  · simp [h1]
  · by_cases h2 : h.deactivate_requested = true
    · simp [h1, h2]
    · by_cases h3 : h.state = PluginState.ActiveWithError
      · simp [h1, h2, h3]
      · by_cases h4 : h.state = PluginState.ActiveAndWaitingForQuiet ∧
            env.inputs_silent = true
        · simp [h1, h2, h3, h4, PluginState.is_active]
        · by_cases h5 : h.state.is_sleeping = true
          · by_cases h6 : env.start_ok = false
            · simp [h1, h2, h3, h4, h5, h6]
            · rcases audio_process_run_state
                { h with state := .ActiveAndProcessing, process_requested := false, deactivate_requested := false }
                env true with hc | hc | hc | hc | hc | hc <;>
                  simp [h1, h2, h3, h4, h5, h6, hc]
          · rcases audio_process_run_state h env false
              with hc | hc | hc | hc | hc | hc <;> simp [h1, h2, h3, h4, h5, hc]

/-- The audio thread never moves an active plugin to `Inactive`. -/
theorem audio_process_not_inactive (h : PluginInstanceHost) (env : AudioEnv)
    (ha : h.state.is_active = true) : (audio_process h env).1.state ≠ .Inactive := by
  rcases audio_process_state_range h env with hc | hc | hc | hc | hc | hc | hc <;>
    rw [hc]
  · exact is_active_ne_inactive ha
  all_goals simp

/-- The deactivation branch of `on_idle` writes `Inactive` only after
observing `ActiveAndReadyToDeactivate`. -/
theorem on_idle_deactivate_only_from_rtd (h : PluginInstanceHost) (env : ActivateEnv)
    (ha : h.state.is_active = true)
    (hi : (h.on_idle_deactivate env).1.state = .Inactive) :
    h.state = .ActiveAndReadyToDeactivate := by
  have hne := is_active_ne_inactive ha
  unfold PluginInstanceHost.on_idle_deactivate PluginInstanceHost.on_idle_finish at hi
  split at hi
  · split at hi
    · next hrtd => exact hrtd
    · split at hi <;> simp_all
  · split at hi <;> simp_all

/-- A main-thread `on_idle` tick moves an active plugin to `Inactive` only
when it observed `ActiveAndReadyToDeactivate`. -/
theorem on_idle_only_from_rtd (h : PluginInstanceHost) (env : ActivateEnv)
    (ha : h.state.is_active = true)
    (hi : (h.on_idle env).1.state = .Inactive) :
    h.state = .ActiveAndReadyToDeactivate := by
  unfold PluginInstanceHost.on_idle at hi
  cases hmt : h.main_thread_present <;> simp [hmt] at hi
  · exact absurd hi (is_active_ne_inactive ha)
  · cases hcb : h.callback_requested <;>
      cases hr : h.restart_requested <;>
        cases hrm : h.remove_requested <;>
          simp [hcb, hr, hrm, ha] at hi <;>
          · have hres := on_idle_deactivate_only_from_rtd _ env (by simpa using ha) hi
            simpa using hres

/-- C4: along any interleaving of main-thread `on_idle` steps and
audio-thread `process` steps, the lifecycle state never moves from an
active state directly to `Inactive` without the previous state being
`ActiveAndReadyToDeactivate`; in particular only the main thread writes
`Inactive`, and only after observing `ActiveAndReadyToDeactivate`. -/
theorem lifecycle_never_skips_ready_to_deactivate
    (tr : Nat → PluginInstanceHost) (n : Nat)
    (hstep : ∀ i, i < n → host_step (tr i) (tr (i + 1))) :
    ∀ i, i < n → (tr i).state.is_active = true → (tr (i + 1)).state = .Inactive →
      (tr i).state = .ActiveAndReadyToDeactivate := by
  intro i hin ha hi
  rcases hstep i hin with ⟨env, he⟩ | ⟨env, he⟩
  · rw [he] at hi
    exact absurd hi (audio_process_not_inactive (tr i) env ha)
  · rw [he] at hi
    exact on_idle_only_from_rtd (tr i) env ha hi

/-- Witness for C4: a concrete two-state trace in which the main thread
deactivates a plugin parked at `ActiveAndReadyToDeactivate`. -/
theorem lifecycle_never_skips_witness :
    (demo_trace 0).state = .ActiveAndReadyToDeactivate :=
  lifecycle_never_skips_ready_to_deactivate demo_trace 1
    (fun i hi => by
      interval_cases i
      exact Or.inr ⟨demo_main_env, by decide⟩)
    0 (by decide) (by decide) (by decide)

/-- Every error path of `connect_edge` leaves the graph untouched. -/
theorem connect_edge_error_unchanged (g : AudioGraph) (e : Edge) (err : ConnectEdgeError)
    (hres : (g.connect_edge e).2 = Except.error err) : (g.connect_edge e).1 = g := by
  unfold AudioGraph.connect_edge at hres ⊢
  cases hsrc : pool_get g.pool e.src_plugin_id with
  | none => simp [hsrc]
  | some se =>
    cases hdst : pool_get g.pool e.dst_plugin_id with
    | none => simp [hsrc, hdst]
    | some de =>
      simp only [hsrc, hdst] at hres ⊢
      by_cases hc1 : src_port_of e ∈ se.port_channels_refs
      · by_cases hc2 : dst_port_of e ∈ de.port_channels_refs
        · cases hag : ag_connect g se.id.node_ref (src_port_of e)
              de.id.node_ref (dst_port_of e) e.edge_type with
          | ok edges' => simp [hc1, hc2, hag] at hres
          | error ae => cases ae <;> simp [hc1, hc2, hag]
        · simp [hc1, hc2]
      · simp [hc1]

/-- When both endpoints resolve and the destination already reaches the
source, `connect_edge` reports `Cycle`. -/
theorem connect_edge_cycle_case (g : AudioGraph) (e : Edge)
    (se de : PluginInstanceHostEntry)
    (hsrc : pool_get g.pool e.src_plugin_id = some se)
    (hdst : pool_get g.pool e.dst_plugin_id = some de)
    (hc1 : src_port_of e ∈ se.port_channels_refs)
    (hc2 : dst_port_of e ∈ de.port_channels_refs)
    (hn1 : se.id.node_ref ∈ g.nodes)
    (hn2 : de.id.node_ref ∈ g.nodes)
    (hcy : reaches g.edges (g.edges.length + 1) de.id.node_ref se.id.node_ref = true) :
    (g.connect_edge e).2 = .error { error_type := .Cycle, edge := e } := by
  unfold AudioGraph.connect_edge
  simp only [hsrc, hdst]
  simp [hc1, hc2, ag_connect, hn1, hn2, hcy]

/-- C5: `connect_edge` either succeeds or fails with exactly one of the six
structural errors; on any error the graph (nodes, ports, edges) is
unchanged; and a connection whose destination already reaches its source —
one that would create a cycle — fails with `Cycle` (adding no edge, by the
unchanged-graph part). -/
theorem connect_edge_spec (g : AudioGraph) (e : Edge) :
    (∀ err, (g.connect_edge e).2 = .error err → (g.connect_edge e).1 = g) ∧
    (∀ err, (g.connect_edge e).2 = .error err →
      err.error_type = .SrcPluginDoesNotExist ∨ err.error_type = .DstPluginDoesNotExist ∨
        err.error_type = .SrcPortDoesNotExist ∨ err.error_type = .DstPortDoesNotExist ∨
          err.error_type = .Cycle ∨ err.error_type = .Unkown) ∧
    (∀ se de, pool_get g.pool e.src_plugin_id = some se →
      pool_get g.pool e.dst_plugin_id = some de →
      src_port_of e ∈ se.port_channels_refs →
      dst_port_of e ∈ de.port_channels_refs →
      se.id.node_ref ∈ g.nodes →
      de.id.node_ref ∈ g.nodes →
      reaches g.edges (g.edges.length + 1) de.id.node_ref se.id.node_ref = true →
      (g.connect_edge e).2 = .error { error_type := .Cycle, edge := e }) :=
  ⟨fun err h => connect_edge_error_unchanged g e err h,
   fun err _ => by
    rcases err with ⟨et, ee⟩
    cases et <;> simp,
   fun se de h1 h2 h3 h4 h5 h6 h7 =>
    connect_edge_cycle_case g e se de h1 h2 h3 h4 h5 h6 h7⟩

/-- Witness for C5: the spec's cycle-refusal scenario. With A.out -> B.in
connected, connecting B.out -> A.in fails with `Cycle`, the graph is
unchanged, and exactly one edge remains. -/
theorem connect_edge_spec_witness :
    (graph_with_a_to_b.connect_edge edge_b_to_a).2 =
      .error { error_type := .Cycle, edge := edge_b_to_a } ∧
    (graph_with_a_to_b.connect_edge edge_b_to_a).1 = graph_with_a_to_b ∧
    graph_with_a_to_b.edges.length = 1 :=
  ⟨(connect_edge_spec graph_with_a_to_b edge_b_to_a).2.2 entry_b entry_a
      (by decide) (by decide) (by decide) (by decide) (by decide) (by decide) (by decide),
   (connect_edge_spec graph_with_a_to_b edge_b_to_a).1
      { error_type := .Cycle, edge := edge_b_to_a }
      ((connect_edge_spec graph_with_a_to_b edge_b_to_a).2.2 entry_b entry_a
        (by decide) (by decide) (by decide) (by decide) (by decide) (by decide) (by decide)),
   by decide⟩

/-- The through-pass fold never touches a buffer that is not one of its
outputs. -/
theorem through_pass_not_written (n : Nat) (ps : List (Nat × Nat)) (st : BufStore)
    (b : Nat) (hb : b ∉ ps.map Prod.snd) : through_pass n ps st b = st b := by
  induction ps generalizing st with
  | nil => rfl
  | cons p tl ih =>
    simp only [List.map_cons, List.mem_cons, not_or] at hb
    have hstep : through_pass n (p :: tl) st =
        through_pass n tl (write_buf st p.2 (copy_first n (st p.1) (st p.2))) := rfl
    rw [hstep, ih _ hb.2, write_buf]
    simp [hb.1]

/-- The clear fold never touches a buffer that is not one of its outputs. -/
theorem extra_clear_not_written (n : Nat) (bs : List Nat) (st : BufStore)
    (b : Nat) (hb : b ∉ bs) : extra_clear n bs st b = st b := by
  induction bs generalizing st with
  | nil => rfl
  | cons c tl ih =>
    simp only [List.mem_cons, not_or] at hb
    have hstep : extra_clear n (c :: tl) st =
        extra_clear n tl (write_buf st c (zero_first n (st c))) := rfl
    rw [hstep, ih _ hb.2, write_buf]
    simp [hb.1]

/-- Under no-aliasing, each through pair receives the copy of its paired
input computed from the original store. -/
theorem through_pass_pair (n : Nat) (ps : List (Nat × Nat)) (st : BufStore)
    (i o : Nat) (hnd : (ps.map Prod.snd).Nodup)
    (hdisj : ∀ p ∈ ps, p.1 ∉ ps.map Prod.snd) (hmem : (i, o) ∈ ps) :
    through_pass n ps st o = copy_first n (st i) (st o) := by
  induction ps generalizing st with
  | nil => simp at hmem
  | cons p tl ih =>
    simp only [List.map_cons, List.nodup_cons] at hnd
    have hstep : through_pass n (p :: tl) st =
        through_pass n tl (write_buf st p.2 (copy_first n (st p.1) (st p.2))) := rfl
    rcases List.mem_cons.mp hmem with heq | htl
    · have hio : p = (i, o) := heq.symm
      subst hio
      rw [hstep, through_pass_not_written n tl _ o hnd.1]
      simp [write_buf]
    · have hi_not : i ∉ (p :: tl).map Prod.snd := by
        have := hdisj (i, o) (List.mem_cons_of_mem p htl)
        simpa using this
      have ho_in_tl : o ∈ tl.map Prod.snd := List.mem_map_of_mem Prod.snd htl
      have ho_ne : o ≠ p.2 := by
        intro he
        exact hnd.1 (he ▸ ho_in_tl)
      have hi_ne : i ≠ p.2 := by
        simp only [List.map_cons, List.mem_cons, not_or] at hi_not
        exact hi_not.1
      rw [hstep, ih _ hnd.2 ?hd htl]
      · rw [write_buf, write_buf]
        simp [hi_ne, ho_ne]
      case hd =>
        intro q hq
        have := hdisj q (List.mem_cons_of_mem p hq)
        simp only [List.map_cons, List.mem_cons, not_or] at this
        exact this.2

/-- Under no duplicates, each extra output is zeroed from its original
contents. -/
theorem extra_clear_mem (n : Nat) (bs : List Nat) (st : BufStore)
    (b : Nat) (hnd : bs.Nodup) (hb : b ∈ bs) :
    extra_clear n bs st b = zero_first n (st b) := by
  induction bs generalizing st with
  | nil => simp at hb
  | cons c tl ih =>
    simp only [List.nodup_cons] at hnd
    have hstep : extra_clear n (c :: tl) st =
        extra_clear n tl (write_buf st c (zero_first n (st c))) := rfl
    rcases List.mem_cons.mp hb with heq | htl
    · subst heq
      rw [hstep, extra_clear_not_written n tl _ b hnd.1]
      simp [write_buf]
    · have hne : b ≠ c := by
        intro he
        exact hnd.1 (he ▸ htl)
      rw [hstep, ih _ hnd.2 htl, write_buf]
      simp [hne]

/-- C8: for a `DeactivatedPluginTask` whose buffer bindings do not alias
(the outputs are pairwise distinct and no input is also an output — the
property the schedule verifier establishes), processing `n` frames copies
the first `n` samples of each paired input into its output, fills the
first `n` samples of every extra output with zero, and modifies no other
buffer. -/
theorem deactivated_plugin_task_spec (t : DeactivatedPluginTask) (n : Nat)
    (st : BufStore)
    (hnd : (t.audio_through.map Prod.snd ++ t.extra_audio_out).Nodup)
    (hdisj : ∀ p ∈ t.audio_through,
      p.1 ∉ t.audio_through.map Prod.snd ++ t.extra_audio_out) :
    (∀ p ∈ t.audio_through,
      t.process n st p.2 = copy_first n (st p.1) (st p.2)) ∧
    (∀ b ∈ t.extra_audio_out, t.process n st b = zero_first n (st b)) ∧
    (∀ b, b ∉ t.audio_through.map Prod.snd ++ t.extra_audio_out →
      t.process n st b = st b) := by
  rcases List.nodup_append.mp hnd with ⟨hnd1, hnd2, hdisj12⟩
  refine ⟨?_, ?_, ?_⟩
  · intro p hp
    have ho_thr : p.2 ∈ t.audio_through.map Prod.snd :=
      List.mem_map_of_mem Prod.snd hp
    have ho_nex : p.2 ∉ t.extra_audio_out := hdisj12 ho_thr
    unfold DeactivatedPluginTask.process
    rw [extra_clear_not_written n t.extra_audio_out _ p.2 ho_nex]
    exact through_pass_pair n t.audio_through st p.1 p.2 hnd1
      (fun q hq => fun hmem =>
        (hdisj q hq) (List.mem_append_left t.extra_audio_out hmem)) hp
  · intro b hb
    have hb_nthr : b ∉ t.audio_through.map Prod.snd :=
      fun hmem => hdisj12 hmem hb
    unfold DeactivatedPluginTask.process
    rw [extra_clear_mem n t.extra_audio_out _ b hnd2 hb,
      through_pass_not_written n t.audio_through st b hb_nthr]
  · intro b hb
    simp only [List.mem_append, not_or] at hb
    obtain ⟨hb1, hb2⟩ := hb
    unfold DeactivatedPluginTask.process
    rw [extra_clear_not_written n t.extra_audio_out _ b hb2,
      through_pass_not_written n t.audio_through st b hb1]

/-- Witness for C8: the demo task on concrete two-sample buffers — the
through pair copies the first frame, the extra output's first frame is
zeroed, untouched buffers keep their contents. -/
theorem deactivated_plugin_task_spec_witness :
    demo_task.process 1 demo_store 1 = [5, 8] ∧
    demo_task.process 1 demo_store 2 = [0, 10] ∧
    demo_task.process 1 demo_store 3 = [] :=
  ⟨((deactivated_plugin_task_spec demo_task 1 demo_store (by decide)
      (by decide)).1 (0, 1) (by decide)).trans (by decide),
   ((deactivated_plugin_task_spec demo_task 1 demo_store (by decide)
      (by decide)).2.1 2 (by decide)).trans (by decide),
   ((deactivated_plugin_task_spec demo_task 1 demo_store (by decide)
      (by decide)).2.2 3 (by decide)).trans (by decide)⟩

/-- Node-handle equality is transitive through a shared left element. -/
theorem pid_eq_trans {a b c : PluginInstanceID} (h1 : pid_eq b a = true)
    (h2 : pid_eq b c = true) : pid_eq a c = true := by
  simp only [pid_eq, beq_iff_eq] at h1 h2 ⊢
  omega

/-- Scheduling a removal on an entry keeps its identity. -/
theorem sched_remove_map_id (e : PluginInstanceHostEntry) (id : PluginInstanceID) :
    (if pid_eq e.id id then { e with host := e.host.schedule_remove } else e).id
      = e.id := by
  split <;> rfl

/-- Scheduling removals for one id does not disturb the lookup of a
different id. -/
theorem pool_get_map_schedule_remove (pool : List PluginInstanceHostEntry)
    (id tgt : PluginInstanceID) (hne : pid_eq id tgt = false) :
    pool_get (pool.map (fun e =>
        if pid_eq e.id id then { e with host := e.host.schedule_remove } else e)) tgt
      = pool_get pool tgt := by
  induction pool with
  | nil => rfl
  | cons e tl ih =>
    unfold pool_get
    rw [List.map_cons, List.find?_cons, List.find?_cons, sched_remove_map_id]
    cases hpe : pid_eq e.id tgt
    · exact ih
    · have hm : pid_eq e.id id = false := by
        by_contra hc
        rw [Bool.not_eq_false] at hc
        have := pid_eq_trans hc hpe
        rw [this] at hne
        exact Bool.true_eq_false.mp hne
      simp [hm]

/-- One `remove_plugin_instances` loop iteration preserves everything about
the graph-in and graph-out entries. -/
theorem remove_step_preserves (g : AudioGraph)
    (acc : AudioGraph × List PluginInstanceID × List Nat) (id : PluginInstanceID)
    (h1 : acc.1.graph_in_node_id = g.graph_in_node_id)
    (h2 : acc.1.graph_out_node_id = g.graph_out_node_id)
    (h3 : ∀ x ∈ acc.2.1, pid_eq x g.graph_in_node_id = false ∧
      pid_eq x g.graph_out_node_id = false)
    (h4 : pool_get acc.1.pool g.graph_in_node_id = pool_get g.pool g.graph_in_node_id)
    (h5 : pool_get acc.1.pool g.graph_out_node_id = pool_get g.pool g.graph_out_node_id)
    (h6 : g.graph_in_node_id.node_ref ∈ acc.1.nodes ↔
      g.graph_in_node_id.node_ref ∈ g.nodes)
    (h7 : g.graph_out_node_id.node_ref ∈ acc.1.nodes ↔
      g.graph_out_node_id.node_ref ∈ g.nodes) :
    (remove_plugin_step acc id).1.graph_in_node_id = g.graph_in_node_id ∧
    (remove_plugin_step acc id).1.graph_out_node_id = g.graph_out_node_id ∧
    (∀ x ∈ (remove_plugin_step acc id).2.1, pid_eq x g.graph_in_node_id = false ∧
      pid_eq x g.graph_out_node_id = false) ∧
    pool_get (remove_plugin_step acc id).1.pool g.graph_in_node_id =
      pool_get g.pool g.graph_in_node_id ∧
    pool_get (remove_plugin_step acc id).1.pool g.graph_out_node_id =
      pool_get g.pool g.graph_out_node_id ∧
    (g.graph_in_node_id.node_ref ∈ (remove_plugin_step acc id).1.nodes ↔
      g.graph_in_node_id.node_ref ∈ g.nodes) ∧
    (g.graph_out_node_id.node_ref ∈ (remove_plugin_step acc id).1.nodes ↔
      g.graph_out_node_id.node_ref ∈ g.nodes) := by
  obtain ⟨g1, removed, affected⟩ := acc
  simp only at h1 h2 h3 h4 h5 h6 h7
  unfold remove_plugin_step
  by_cases hg : (pid_eq id g1.graph_in_node_id || pid_eq id g1.graph_out_node_id) = true
  · simp only [hg, if_true]
    exact ⟨h1, h2, h3, h4, h5, h6, h7⟩
  · have hg' : pid_eq id g.graph_in_node_id = false ∧
        pid_eq id g.graph_out_node_id = false := by
      rw [h1, h2] at hg
      simpa [Bool.or_eq_true, not_or] using hg
    simp only [hg, if_false, Bool.false_eq_true]
    by_cases hmem : removed.any (fun x => pid_eq x id) = true
    · simp only [hmem, if_true]
      exact ⟨h1, h2, h3, h4, h5, h6, h7⟩
    · simp only [hmem, if_false, Bool.false_eq_true]
      by_cases hnode : g1.nodes.contains id.node_ref = true
      · simp only [hnode, if_true]
        refine ⟨h1, h2, ?_, ?_, ?_, ?_, ?_⟩
        · intro x hx
          rcases List.mem_append.mp hx with hold | hnew
          · exact h3 x hold
          · have hxid : x = id := by simpa using hnew
            subst hxid
            exact hg'
        · rw [pool_get_map_schedule_remove g1.pool id g.graph_in_node_id hg'.1]
          exact h4
        · rw [pool_get_map_schedule_remove g1.pool id g.graph_out_node_id hg'.2]
          exact h5
        · have hne : (g.graph_in_node_id.node_ref == id.node_ref) = false := by
            have := hg'.1
            simp only [pid_eq, beq_eq_false_iff_ne] at this ⊢
            omega
          constructor
          · intro hmemf
            exact h6.mp (List.mem_filter.mp hmemf).1
          · intro hmemg
            refine List.mem_filter.mpr ⟨h6.mpr hmemg, ?_⟩
            simp [hne]
        · have hne : (g.graph_out_node_id.node_ref == id.node_ref) = false := by
            have := hg'.2
            simp only [pid_eq, beq_eq_false_iff_ne] at this ⊢
            omega
          constructor
          · intro hmemf
            exact h7.mp (List.mem_filter.mp hmemf).1
          · intro hmemg
            refine List.mem_filter.mpr ⟨h7.mpr hmemg, ?_⟩
            simp [hne]
      · simp only [hnode, if_false, Bool.false_eq_true]
        exact ⟨h1, h2, h3, h4, h5, h6, h7⟩

/-- The whole `remove_plugin_instances` fold preserves everything about the
graph-in and graph-out entries. -/
theorem remove_fold_preserves (g : AudioGraph) (ids : List PluginInstanceID) :
    ∀ acc : AudioGraph × List PluginInstanceID × List Nat,
      acc.1.graph_in_node_id = g.graph_in_node_id →
      acc.1.graph_out_node_id = g.graph_out_node_id →
      (∀ x ∈ acc.2.1, pid_eq x g.graph_in_node_id = false ∧
        pid_eq x g.graph_out_node_id = false) →
      pool_get acc.1.pool g.graph_in_node_id = pool_get g.pool g.graph_in_node_id →
      pool_get acc.1.pool g.graph_out_node_id = pool_get g.pool g.graph_out_node_id →
      (g.graph_in_node_id.node_ref ∈ acc.1.nodes ↔
        g.graph_in_node_id.node_ref ∈ g.nodes) →
      (g.graph_out_node_id.node_ref ∈ acc.1.nodes ↔
        g.graph_out_node_id.node_ref ∈ g.nodes) →
      (∀ x ∈ (ids.foldl remove_plugin_step acc).2.1,
        pid_eq x g.graph_in_node_id = false ∧ pid_eq x g.graph_out_node_id = false) ∧
      pool_get (ids.foldl remove_plugin_step acc).1.pool g.graph_in_node_id =
        pool_get g.pool g.graph_in_node_id ∧
      pool_get (ids.foldl remove_plugin_step acc).1.pool g.graph_out_node_id =
        pool_get g.pool g.graph_out_node_id ∧
      (g.graph_in_node_id.node_ref ∈ (ids.foldl remove_plugin_step acc).1.nodes ↔
        g.graph_in_node_id.node_ref ∈ g.nodes) ∧
      (g.graph_out_node_id.node_ref ∈ (ids.foldl remove_plugin_step acc).1.nodes ↔
        g.graph_out_node_id.node_ref ∈ g.nodes) := by
  induction ids with
  | nil =>
    intro acc h1 h2 h3 h4 h5 h6 h7
    exact ⟨h3, h4, h5, h6, h7⟩
  | cons id tl ih =>
    intro acc h1 h2 h3 h4 h5 h6 h7
    rw [List.foldl_cons]
    have hstep := remove_step_preserves g acc id h1 h2 h3 h4 h5 h6 h7
    exact ih (remove_plugin_step acc id) hstep.1 hstep.2.1 hstep.2.2.1
      hstep.2.2.2.1 hstep.2.2.2.2.1 hstep.2.2.2.2.2.1 hstep.2.2.2.2.2.2

/-- C9: `remove_plugin_instances` never removes the graph-in or graph-out
node: neither appears in the returned removed set, their pool entries are
untouched (in particular no removal is scheduled on them), and their
membership in the abstract graph's node set is unchanged. -/
theorem remove_plugin_instances_spec (g : AudioGraph) (ids : List PluginInstanceID) :
    (∀ x ∈ (g.remove_plugin_instances ids).2.1,
      pid_eq x g.graph_in_node_id = false ∧ pid_eq x g.graph_out_node_id = false) ∧
    pool_get (g.remove_plugin_instances ids).1.pool g.graph_in_node_id =
      pool_get g.pool g.graph_in_node_id ∧
    pool_get (g.remove_plugin_instances ids).1.pool g.graph_out_node_id =
      pool_get g.pool g.graph_out_node_id ∧
    (g.graph_in_node_id.node_ref ∈ (g.remove_plugin_instances ids).1.nodes ↔
      g.graph_in_node_id.node_ref ∈ g.nodes) ∧
    (g.graph_out_node_id.node_ref ∈ (g.remove_plugin_instances ids).1.nodes ↔
      g.graph_out_node_id.node_ref ∈ g.nodes) :=
  remove_fold_preserves g ids (g, [], []) rfl rfl (by simp) rfl rfl Iff.rfl Iff.rfl

/-- C6 (divergence witness): the save/restore round trip is not an
isomorphism. In `c6_graph` the pool iteration enumerates plugin A before
the graph-in/out entries, so `collect_save_state` records the edge
graph-in -> A as endpoint indices (1, 0) — the enumerate positions of
graph-in and A. `restore_from_save_state` decodes index 1 as graph-out and
index 0 as graph-in (the convention of the spec), tries to connect
graph-out -> graph-in, fails, and drops the edge: the restored graph has no
edges while the original has one. -/
theorem save_state_round_trip_breaks :
    (c6_graph.collect_save_state).edges.map
      (fun e => (e.src_plugin_i, e.dst_plugin_i)) = [(1, 0), (1, 0)] ∧
    (c6_graph.restore_from_save_state demo_ports_of_key
      (c6_graph.collect_save_state)).1.edges = [] ∧
    c6_graph.edges = [c6_edge] := by decide

/-- Witness for C9: removing plugin A together with the graph-in node from
the two-plugin demo graph classifies A as removable (not a graph I/O node)
and leaves the graph-in pool entry untouched. -/
theorem remove_plugin_instances_spec_witness :
    (pid_eq { node_ref := 2, format := .Internal }
        two_plugin_graph.graph_in_node_id = false ∧
      pid_eq { node_ref := 2, format := .Internal }
        two_plugin_graph.graph_out_node_id = false) ∧
    pool_get (two_plugin_graph.remove_plugin_instances remove_demo_ids).1.pool
        two_plugin_graph.graph_in_node_id =
      pool_get two_plugin_graph.pool two_plugin_graph.graph_in_node_id :=
  ⟨(remove_plugin_instances_spec two_plugin_graph remove_demo_ids).1
      { node_ref := 2, format := .Internal } (by decide),
   (remove_plugin_instances_spec two_plugin_graph remove_demo_ids).2.1⟩

end Dropseed
